import Mathlib

/-!
Verification of the mqtt-SNZB-06P occupancy monitor.

This file gives a shallow embedding of the two Python source files
(`mqtt_occupancy_monitor.py` and `occupancy_db_query.py`) and proves or
refutes the specification claims about them.

Conventions of the embedding:
- Python global mutable state of `mqtt_occupancy_monitor.py` becomes the
  record `MonitorState`; the MQTT callbacks become explicit state
  transformers returning the new state together with the list of lines
  printed (the log).
- Decoded JSON payloads become the inductive `JsonValue` (JSON numbers are
  modelled as integers; fractional numbers do not occur in the claims).
  A message whose payload fails UTF-8 decoding or JSON parsing is the
  `Payload.malformed` case.
- Python equality `==` / `!=` between decoded JSON values is the function
  `pyEq` below, including the Python quirk that `True == 1` and
  `False == 0`, and that the JSON value `null` decodes to the same Python
  `None` that `last_occupancy_state` is initialised to.
- Random jitter is passed in explicitly as a rational number, and wall
  clock times are integers (seconds).
-/

/-! ## JSON values and Python equality -/

mutual

/-- A decoded JSON payload value, as produced by `json.loads`. -/
inductive JsonValue : Type where
  | null : JsonValue
  | boolean : Bool → JsonValue
  | num : Int → JsonValue
  | str : String → JsonValue
  | arr : JsonArray → JsonValue
  | obj : JsonObj → JsonValue

/-- Spine of a JSON array. -/
inductive JsonArray : Type where
  | nilA : JsonArray
  | consA : JsonValue → JsonArray → JsonArray

/-- Spine of a JSON object (an association list; `json.loads` produces
unique keys, later duplicates having overwritten earlier ones). -/
inductive JsonObj : Type where
  | nilO : JsonObj
  | consO : String → JsonValue → JsonObj → JsonObj

end

/-- Dictionary lookup, as in Python `payload[k]` on a dict. -/
def findO (k : String) : JsonObj → Option JsonValue
  | .nilO => none
  | .consO key v rest => if key = k then some v else findO k rest

/-- Number of entries of a JSON object (Python `len`). -/
def objLen : JsonObj → Nat
  | .nilO => 0
  | .consO _ _ rest => objLen rest + 1

mutual

/-- Python `==` on decoded JSON values: `True == 1` and `False == 0`
(bool is a subclass of int); `None` only equals `None`; lists compare
elementwise; dicts compare by equal size plus key-wise equal values. -/
def pyEq : JsonValue → JsonValue → Bool
  | .null, .null => true
  | .boolean a, .boolean b => a == b
  | .boolean a, .num n => (if a then (1 : Int) else 0) == n
  | .num n, .boolean b => n == (if b then (1 : Int) else 0)
  | .num a, .num b => a == b
  | .str a, .str b => a == b
  | .arr xs, .arr ys => pyEqArr xs ys
  | .obj xs, .obj ys => objLen xs == objLen ys && pyEqSub xs ys
  | _, _ => false

def pyEqArr : JsonArray → JsonArray → Bool
  | .nilA, .nilA => true
  | .consA x xs, .consA y ys => pyEq x y && pyEqArr xs ys
  | _, _ => false

def pyEqSub : JsonObj → JsonObj → Bool
  | .nilO, _ => true
  | .consO k v rest, ys =>
      (match findO k ys with
       | some w => pyEq v w
       | none => false) && pyEqSub rest ys

end

/-- Substring test on character lists (Python `pat in s` for strings). -/
def containsSub (pat : List Char) : List Char → Bool
  | [] => pat.isEmpty
  | c :: t => pat.isPrefixOf (c :: t) || containsSub pat t

/-- Membership test of the string literal in a JSON array, as Python
`x in list` (elementwise `==`). -/
def arrContainsStr (k : String) : JsonArray → Bool
  | .nilA => false
  | .consA x xs => pyEq x (.str k) || arrContainsStr k xs

/-! ## The message handler `on_message` -/

/-- Outcome of `json.loads(msg.payload.decode())`: either the payload was
not valid UTF-8 JSON, or it decoded to a JSON value. -/
inductive Payload : Type where
  | malformed : Payload
  | parsed : JsonValue → Payload

/-- Python `'occupancy' in payload`: key membership for dicts, element
membership for lists, substring test for strings, `TypeError` (modelled
as `Except.error`) for the remaining types. -/
def pyInOccupancy : JsonValue → Except Unit Bool
  | .obj fields => .ok (findO "occupancy" fields).isSome
  | .arr xs => .ok (arrContainsStr "occupancy" xs)
  | .str s => .ok (containsSub "occupancy".data s.data)
  | _ => .error ()

/-- Python `payload['occupancy']`: dict indexing succeeds; list and
string indexing with a string key raises `TypeError`. -/
def getOccupancy : JsonValue → Except Unit JsonValue
  | .obj fields =>
      match findO "occupancy" fields with
      | some w => .ok w
      | none => .error ()
  | _ => .error ()

/-- Result of one `on_message` call: the new `last_occupancy_state`
(`JsonValue.null` stands for Python `None`, which is also what the JSON
value `null` decodes to), the state-change line printed if any (carrying
the new state value), and the error line printed if an exception was
caught. -/
structure MsgResult where
  newLast : JsonValue
  event : Option JsonValue
  errLog : Option String

/-- The `on_message` callback of `mqtt_occupancy_monitor.py`, as a
function of the previous `last_occupancy_state` and the decoded payload.
A `json.JSONDecodeError` and any other exception are caught and logged;
a payload without an `occupancy` field is silently ignored; otherwise
the value of the field is compared with the last state using Python
inequality, and on a difference a line is printed and the state is
updated. -/
def on_message (last : JsonValue) (p : Payload) : MsgResult :=
  match p with
  | .malformed => ⟨last, none, some "Error: Received non-JSON message"⟩
  | .parsed v =>
    match pyInOccupancy v with
    | .error _ => ⟨last, none, some "Error processing message"⟩
    | .ok false => ⟨last, none, none⟩
    | .ok true =>
      match getOccupancy v with
      | .error _ => ⟨last, none, some "Error processing message"⟩
      | .ok cur =>
        if pyEq cur last then ⟨last, none, none⟩
        else ⟨cur, some cur, none⟩

/-- Run `on_message` over a sequence of inbound payloads, returning the
final `last_occupancy_state` and the sequence of emitted state-change
events (their state values, in emission order). -/
def runMessages (last : JsonValue) : List Payload → JsonValue × List JsonValue
  | [] => (last, [])
  | p :: ps =>
    let r := on_message last p
    let rest := runMessages r.newLast ps
    (rest.1, (match r.event with | some e => [e] | none => []) ++ rest.2)

/-- A valid sensor reading: a JSON object whose `occupancy` field is the
boolean `b`. -/
def boolReading (b : Bool) : Payload :=
  .parsed (.obj (.consO "occupancy" (.boolean b) .nilO))

/-- Events emitted by the handler on a sequence of valid boolean sensor
readings, starting from the initial `last_occupancy_state = None`. -/
def occupancyEvents (bs : List Bool) : List JsonValue :=
  (runMessages .null (bs.map boolReading)).2

/-! ## Monitor configuration constants (`mqtt_occupancy_monitor.py`) -/

def MQTT_TOPIC : String := "zigbee2mqtt/SONOFF_SNZB-06P"

def MQTT_HEARTBEAT_TOPIC : String := "occupancy_monitor/heartbeat"

def HEARTBEAT_INTERVAL : Int := 15

def KEEPALIVE_INTERVAL : Int := 30

def MAX_INACTIVE_TIME : Int := 60

def RECONNECT_DELAY_MIN : ℚ := 1

def RECONNECT_DELAY_MAX : ℚ := 60

def MAX_RECONNECT_ATTEMPTS : Int := -1

/-! ## The session state machine -/

/-- The global mutable state of `mqtt_occupancy_monitor.py`:
`RECONNECT_ATTEMPTS`, the `reconnecting` flag, `last_occupancy_state`
and whether the main loop has exited. -/
structure MonitorState where
  reconnect_attempts : Int
  reconnecting : Bool
  last_occupancy_state : JsonValue
  terminated : Bool

/-- The state at interpreter startup: zero attempts, not reconnecting,
last state `None`, process running. -/
def initState : MonitorState :=
  { reconnect_attempts := 0, reconnecting := false,
    last_occupancy_state := .null, terminated := false }

/-- The `on_connect` callback: on `rc == 0` it subscribes and, only when
the `reconnecting` flag is set, clears the flag and resets
`RECONNECT_ATTEMPTS` to 0; on a non-zero `rc` it only prints a failure
line. -/
def on_connect (s : MonitorState) (rc : Int) : MonitorState × List String :=
  if rc = 0 then
    if s.reconnecting then
      ({ s with reconnecting := false, reconnect_attempts := 0 },
       ["Connected to MQTT Broker", "Subscribed",
        "Monitoring occupancy sensor state changes...",
        "Reconnection successful"])
    else
      (s, ["Connected to MQTT Broker", "Subscribed",
           "Monitoring occupancy sensor state changes..."])
  else
    (s, ["Failed to connect to MQTT Broker, return code"])

/-- The `on_disconnect` callback: a non-zero `rc` marks an unexpected
disconnection and sets the `reconnecting` flag; a zero `rc` only logs. -/
def on_disconnect (s : MonitorState) (rc : Int) : MonitorState × List String :=
  if rc ≠ 0 then
    ({ s with reconnecting := true },
     ["Unexpected disconnection from MQTT Broker, return code"])
  else
    (s, ["Disconnected from MQTT Broker"])

/-- `get_reconnect_delay`: increments the global `RECONNECT_ATTEMPTS`,
then returns `min(RECONNECT_DELAY_MAX, RECONNECT_DELAY_MIN * 2 ** (RECONNECT_ATTEMPTS - 1))`
plus the uniform jitter drawn from `[0, 1)`, which is passed in
explicitly here. The exponent is an integer power (`zpow`), exactly as
Python `2 ** n` on a possibly negative integer. -/
def get_reconnect_delay (s : MonitorState) (jitter : ℚ) : MonitorState × ℚ :=
  let attempts := s.reconnect_attempts + 1
  let s2 := { s with reconnect_attempts := attempts }
  let delay := min RECONNECT_DELAY_MAX (RECONNECT_DELAY_MIN * (2 : ℚ) ^ (attempts - 1))
  (s2, delay + jitter)

/-- The saturated base delay before jitter, as a function of the attempt
count before the call. -/
def delayBase (a : Int) : ℚ :=
  min RECONNECT_DELAY_MAX (RECONNECT_DELAY_MIN * (2 : ℚ) ^ a)

/-- External stimuli driving the state machine: a CONNACK with code
`rc`, a disconnect notification with code `rc`, an inbound message, and
one pass of the reconnection check in the main `while True` loop (with
the transport connectivity answer and the jitter drawn for the pass). -/
inductive Ev : Type where
  | connect : Int → Ev
  | disconnect : Int → Ev
  | message : Payload → Ev
  | reconnectTick : Bool → ℚ → Ev
  | keyboardInterrupt : Ev

/-- One step of the process: the callbacks update the globals as in the
source, and a pass of the main loop attempts a manual reconnect only
when `reconnecting` is set and the client is not connected, exiting
instead when a positive `MAX_RECONNECT_ATTEMPTS` has been reached
(never, under the default `-1`). -/
def stepM (s : MonitorState) : Ev → MonitorState
  | .connect rc => (on_connect s rc).1
  | .disconnect rc => (on_disconnect s rc).1
  | .message p =>
      { s with last_occupancy_state := (on_message s.last_occupancy_state p).newLast }
  | .reconnectTick connected jitter =>
      if s.reconnecting ∧ connected = false then
        if 0 < MAX_RECONNECT_ATTEMPTS ∧ MAX_RECONNECT_ATTEMPTS ≤ s.reconnect_attempts then
          { s with terminated := true }
        else
          (get_reconnect_delay s jitter).1
      else s
  | .keyboardInterrupt => { s with terminated := true }

/-- States reachable from interpreter startup. -/
inductive Reach : MonitorState → Prop where
  | init : Reach initState
  | next : ∀ {s : MonitorState}, Reach s → ∀ e : Ev, Reach (stepM s e)

/-! ## Liveness tracking and heartbeat

`mqtt_occupancy_monitor.py` under `src/` only declares
`last_activity_time = None` and `MAX_INACTIVE_TIME = 60` and
`MQTT_HEARTBEAT_TOPIC` / `HEARTBEAT_INTERVAL = 15`; no code in the file
reads `last_activity_time`, checks staleness, or publishes a heartbeat.
The repository contains a database-backed monitor variant
(`mqtt_occupancy_monitor_db.py`, referenced by `occupancy_db_query.py`)
that is not under `src/`, so these two behaviours are modelled from the
spec. -/

/-- Modelled from the spec: the staleness predicate of the Liveness
Tracker is missing from `src/` (only the `last_activity_time` variable
and the `MAX_INACTIVE_TIME` constant are declared, and never used).
Per the spec, `isStale(now, maxInactive)` is true when
`now - lastActivityAt > maxInactive`. -/
def isStale (lastActivityAt now maxInactive : Int) : Bool :=
  decide (maxInactive < now - lastActivityAt)

/-- Modelled from the spec: heartbeat publication is missing from
`src/` (only `MQTT_HEARTBEAT_TOPIC` and `HEARTBEAT_INTERVAL` are
declared, and never used). Per the spec, while the process runs the
k-th heartbeat is published to the fixed heartbeat topic at the fixed
interval after start, independently of inbound sensor traffic: the
schedule is a function of the start time and the index only. -/
def heartbeatPublication (start : Int) (k : Nat) : Int × String :=
  (start + k * HEARTBEAT_INTERVAL, MQTT_HEARTBEAT_TOPIC)

/-! ## The reporting query (`occupancy_db_query.py`)

The persisted event table is modelled as a list of rows in insertion
order; the database file is assumed to exist (`check_database_exists`
and `get_connection` succeed) and the SQLite calls to succeed, since
the claims are about the query logic. SQLite compares TEXT columns
bytewise (BINARY collation); on the character level this is
codepoint-lexicographic order, `charsLt` below. -/

/-- A row of the `occupancy_events` table. -/
structure OccEvent where
  id : Int
  timestamp : String
  occupancy : Bool

/-- Bytewise (codepoint-lexicographic) strict order on character lists,
as SQLite BINARY collation compares TEXT values. -/
def charsLt : List Char → List Char → Bool
  | [], [] => false
  | [], _ :: _ => true
  | _ :: _, [] => false
  | a :: as, b :: bs =>
      if a.toNat < b.toNat then true
      else if b.toNat < a.toNat then false
      else charsLt as bs

/-- SQLite `<` on TEXT values. -/
def strLtB (a b : String) : Bool := charsLt a.data b.data

/-- SQLite `<=` (and `>=`, with the arguments swapped) on TEXT values. -/
def strLeB (a b : String) : Bool := !(strLtB b a)

/-- `timestamp >= date_start AND timestamp < date_end`. -/
def inWindow (dateStart dateEnd : String) (e : OccEvent) : Bool :=
  strLeB dateStart e.timestamp && strLtB e.timestamp dateEnd

/-- Row order of `ORDER BY timestamp ASC`. -/
def tsLe (a b : OccEvent) : Prop := strLeB a.timestamp b.timestamp = true

instance : DecidableRel tsLe := fun a b =>
  inferInstanceAs (Decidable (strLeB a.timestamp b.timestamp = true))

/-- `ORDER BY timestamp ASC`, modelled as a sort of the filtered rows. -/
def sortByTimestamp (l : List OccEvent) : List OccEvent :=
  List.insertionSort tsLe l

/-- Numeric value of a decimal digit character. -/
def digitVal (c : Char) : Nat := c.toNat - '0'.toNat

/-- The `%Y` directive of `strptime`: exactly four decimal digits. -/
def parseYear4 : List Char → Option (Nat × List Char)
  | a :: b :: c :: d :: rest =>
      if a.isDigit && b.isDigit && c.isDigit && d.isDigit then
        some ((((digitVal a) * 10 + digitVal b) * 10 + digitVal c) * 10 + digitVal d, rest)
      else none
  | _ => none

/-- The `%m` directive of `strptime`: the regex `1[0-2]|0[1-9]|[1-9]`,
first matching alternative wins. -/
def parseMonth : List Char → Option (Nat × List Char)
  | '1' :: c :: rest =>
      if '0' ≤ c ∧ c ≤ '2' then some (10 + digitVal c, rest)
      else some (1, c :: rest)
  | '0' :: c :: rest =>
      if '1' ≤ c ∧ c ≤ '9' then some (digitVal c, rest) else none
  | c :: rest =>
      if '1' ≤ c ∧ c ≤ '9' then some (digitVal c, rest) else none
  | [] => none

/-- The `%d` directive of `strptime`: the regex `3[01]|[12]\d|0[1-9]|[1-9]`,
first matching alternative wins. -/
def parseDay : List Char → Option (Nat × List Char)
  | '3' :: c :: rest =>
      if c = '0' ∨ c = '1' then some (30 + digitVal c, rest)
      else some (3, c :: rest)
  | '0' :: c :: rest =>
      if '1' ≤ c ∧ c ≤ '9' then some (digitVal c, rest) else none
  | c :: d :: rest =>
      if (c = '1' ∨ c = '2') ∧ d.isDigit then some (10 * digitVal c + digitVal d, rest)
      else if '1' ≤ c ∧ c ≤ '9' then some (digitVal c, d :: rest)
      else none
  | c :: [] =>
      if '1' ≤ c ∧ c ≤ '9' then some (digitVal c, []) else none
  | [] => none

/-- Gregorian leap year, as `calendar.isleap` and the `datetime` module
use it. -/
def isLeap (y : Nat) : Bool :=
  ((y % 4 == 0) && !(y % 100 == 0)) || (y % 400 == 0)

/-- Days in a month of the proleptic Gregorian calendar. -/
def daysInMonth (y m : Nat) : Nat :=
  if m = 2 then (if isLeap y then 29 else 28)
  else if m = 4 ∨ m = 6 ∨ m = 9 ∨ m = 11 then 30
  else 31

/-- `datetime.datetime.strptime(date_str, "%Y-%m-%d")`: the compiled
pattern must match the whole string, and constructing the `datetime`
additionally requires `1 <= year` and a day that exists in the month;
any failure raises `ValueError` (`none` here). -/
def parseDate (s : String) : Option (Nat × Nat × Nat) :=
  match parseYear4 s.data with
  | none => none
  | some (y, r1) =>
    match r1 with
    | '-' :: r2 =>
      match parseMonth r2 with
      | none => none
      | some (m, r3) =>
        match r3 with
        | '-' :: r4 =>
          match parseDay r4 with
          | none => none
          | some (d, r5) =>
            if r5 = [] ∧ 1 ≤ y ∧ d ≤ daysInMonth y m then some (y, m, d)
            else none
        | _ => none
    | _ => none

/-- `date_obj + datetime.timedelta(days=1)` on a midnight datetime:
the following calendar day. -/
def nextDayCal (y m d : Nat) : Nat × Nat × Nat :=
  if d < daysInMonth y m then (y, m, d + 1)
  else if m < 12 then (y, m + 1, 1)
  else (y + 1, 1, 1)

/-- Zero-padded two-digit rendering, as `strftime` `%m` and `%d`. -/
def pad2 (n : Nat) : String := if n < 10 then "0" ++ toString n else toString n

/-- `strftime("%Y-%m-%d")` as CPython produces it on Linux (glibc):
`%m` and `%d` are zero-padded to two digits; `%Y` is the plain decimal
year, which for years below 1000 has fewer than four digits. -/
def strftimeYMD (y m d : Nat) : String :=
  toString y ++ "-" ++ pad2 m ++ "-" ++ pad2 d

/-- The error line printed on a `ValueError` from `strptime`. -/
def dateFormatError : String :=
  "Fehler: Ungültiges Datumsformat. Bitte verwenden Sie YYYY-MM-DD."

/-- Result of a Python call: `value = none` means an uncaught exception
escaped the call; `logs` are the lines printed. -/
structure PyResult (α : Type) where
  value : Option α
  logs : List String

/-- `get_events_by_date` of `occupancy_db_query.py` (with the database
file present and SQLite succeeding): parse the date string, on
`ValueError` print the format error and return the empty list; compute
the next day with `timedelta(days=1)` — which for `9999-12-31`
overflows `datetime.max` and raises an `OverflowError` that the
`except ValueError` clause does not catch; otherwise format both
bounds with `strftime("%Y-%m-%d")` and return the rows with
`timestamp >= date_start AND timestamp < date_end`, ordered by
timestamp ascending. -/
def get_events_by_date (dateStr : String) (db : List OccEvent) :
    PyResult (List OccEvent) :=
  match parseDate dateStr with
  | none => ⟨some [], [dateFormatError]⟩
  | some (y, m, d) =>
    if y = 9999 ∧ m = 12 ∧ d = 31 then
      ⟨none, []⟩
    else
      let dateStart := strftimeYMD y m d
      let n := nextDayCal y m d
      let dateEnd := strftimeYMD n.1 n.2.1 n.2.2
      ⟨some (sortByTimestamp (db.filter (inWindow dateStart dateEnd))), []⟩

/-! ## Order facts about the bytewise comparison -/

lemma charsLt_asymm : ∀ x y : List Char, charsLt x y = true → charsLt y x = false := by
  intro x
  induction x with
  | nil =>
    intro y h
    cases y with
    | nil => simp [charsLt] at h
    | cons b bs => rfl
  | cons a as ih =>
    intro y h
    cases y with
    | nil => simp [charsLt] at h
    | cons b bs =>
      simp only [charsLt] at h ⊢
      by_cases h1 : a.toNat < b.toNat
      · rw [if_neg (show ¬ b.toNat < a.toNat by omega), if_pos h1]
      · by_cases h2 : b.toNat < a.toNat
        · rw [if_neg h1, if_pos h2] at h
          exact absurd h (by simp)
        · rw [if_neg h1, if_neg h2] at h
          rw [if_neg h2, if_neg h1]
          exact ih bs h

lemma charsLt_false_trans :
    ∀ x y z : List Char, charsLt y x = false → charsLt z y = false →
      charsLt z x = false := by
  intro x
  induction x with
  | nil =>
    intro y z h1 h2
    cases z with
    | nil => rfl
    | cons c cs => rfl
  | cons a as ih =>
    intro y z h1 h2
    cases y with
    | nil => exact absurd h1 (by simp [charsLt])
    | cons b bs =>
      cases z with
      | nil => exact absurd h2 (by simp [charsLt])
      | cons c cs =>
        simp only [charsLt] at h1 h2 ⊢
        by_cases hba : b.toNat < a.toNat
        · rw [if_pos hba] at h1
          exact absurd h1 (by simp)
        · by_cases hcb : c.toNat < b.toNat
          · rw [if_pos hcb] at h2
            exact absurd h2 (by simp)
          · rw [if_neg (show ¬ c.toNat < a.toNat by omega)]
            by_cases hac : a.toNat < c.toNat
            · rw [if_pos hac]
            · rw [if_neg hac]
              rw [if_neg hba, if_neg (show ¬ a.toNat < b.toNat by omega)] at h1
              rw [if_neg hcb, if_neg (show ¬ b.toNat < c.toNat by omega)] at h2
              exact ih bs cs h1 h2

instance : IsTotal OccEvent tsLe := by
  constructor
  intro a b
  cases hab : charsLt b.timestamp.data a.timestamp.data with
  | false => exact Or.inl (by simp [tsLe, strLeB, strLtB, hab])
  | true => exact Or.inr (by simp [tsLe, strLeB, strLtB, charsLt_asymm _ _ hab])

instance : IsTrans OccEvent tsLe := by
  constructor
  intro a b c h1 h2
  have h1a : charsLt b.timestamp.data a.timestamp.data = false := by
    simpa [tsLe, strLeB, strLtB] using h1
  have h2a : charsLt c.timestamp.data b.timestamp.data = false := by
    simpa [tsLe, strLeB, strLtB] using h2
  simp [tsLe, strLeB, strLtB, charsLt_false_trans _ _ _ h1a h2a]

/-! ## Behaviour of the message handler on valid boolean readings -/

lemma pyEq_boolean_null (b : Bool) : pyEq (.boolean b) .null = false := rfl

lemma pyEq_boolean_boolean (a b : Bool) :
    pyEq (.boolean a) (.boolean b) = (a == b) := rfl

lemma on_message_boolReading (last : JsonValue) (b : Bool) :
    on_message last (boolReading b) =
      if pyEq (.boolean b) last then ⟨last, none, none⟩
      else ⟨.boolean b, some (.boolean b), none⟩ := by
  by_cases hb : pyEq (.boolean b) last <;>
    simp [on_message, boolReading, pyInOccupancy, getOccupancy, findO, hb]

/-- Emitted events as a function of the running last state. -/
def evsFrom (last : JsonValue) (bs : List Bool) : List JsonValue :=
  (runMessages last (bs.map boolReading)).2

lemma evsFrom_null_cons (b : Bool) (bs : List Bool) :
    evsFrom .null (b :: bs) = .boolean b :: evsFrom (.boolean b) bs := by
  simp [evsFrom, runMessages, on_message_boolReading, pyEq_boolean_null]

lemma evsFrom_boolean_cons (c b : Bool) (bs : List Bool) :
    evsFrom (.boolean c) (b :: bs) =
      if b = c then evsFrom (.boolean c) bs
      else .boolean b :: evsFrom (.boolean b) bs := by
  by_cases h : b = c
  · simp [evsFrom, runMessages, on_message_boolReading, pyEq_boolean_boolean, h]
  · simp [evsFrom, runMessages, on_message_boolReading, pyEq_boolean_boolean, h]

lemma evsFrom_alternates (bs : List Bool) : ∀ c : Bool,
    List.Chain' (fun x y => x ≠ y) (evsFrom (.boolean c) bs) ∧
    (∀ e, (evsFrom (.boolean c) bs).head? = some e → e ≠ .boolean c) := by
  induction bs with
  | nil =>
    intro c
    constructor
    · simp [evsFrom, runMessages]
    · intro e he
      simp [evsFrom, runMessages] at he
  | cons b bs ih =>
    intro c
    by_cases h : b = c
    · subst h
      rw [evsFrom_boolean_cons, if_pos rfl]
      exact ih b
    · rw [evsFrom_boolean_cons, if_neg h]
      constructor
      · rw [List.chain'_cons']
        refine ⟨?_, (ih b).1⟩
        intro e he
        exact fun heq => (ih b).2 e he heq.symm
      · intro e he
        simp only [List.head?_cons, Option.some.injEq] at he
        subst he
        intro heq
        exact h (by injection heq)

/-- C1: for every sequence of valid boolean sensor readings processed by
the message handler, the sequence of emitted occupancy events carries no
two consecutive equal state values (strict alternation), and the first
reading always produces an event carrying its own value, since the
last-known state starts as `None`. -/
theorem occupancy_events_alternate (bs : List Bool) :
    List.Chain' (fun x y => x ≠ y) (occupancyEvents bs) ∧
    (∀ b bs2, bs = b :: bs2 → (occupancyEvents bs).head? = some (.boolean b)) := by
  cases bs with
  | nil =>
    constructor
    · simp [occupancyEvents, runMessages]
    · intro b bs2 h
      exact absurd h (by simp)
  | cons b bs =>
    have hrw : occupancyEvents (b :: bs) = .boolean b :: evsFrom (.boolean b) bs :=
      evsFrom_null_cons b bs
    constructor
    · rw [hrw, List.chain'_cons']
      refine ⟨?_, (evsFrom_alternates bs b).1⟩
      intro e he
      exact fun heq => (evsFrom_alternates bs b).2 e he heq.symm
    · intro b2 bs2 h
      have hb : b2 = b := by
        have := congrArg List.head? h
        simpa using this.symm
      subst hb
      rw [hrw]
      rfl

/-- C1 witness: the scenario readings true, true, false, false, true
emit the alternating events true, false, true, the first one carrying
the first reading. -/
theorem occupancy_events_alternate_witness :
    List.Chain' (fun x y => x ≠ y) (occupancyEvents [true, true, false, false, true]) ∧
    (occupancyEvents [true, true, false, false, true]).head? = some (.boolean true) :=
  ⟨(occupancy_events_alternate [true, true, false, false, true]).1,
   (occupancy_events_alternate [true, true, false, false, true]).2 true
     [true, false, false, true] rfl⟩

/-! ## Backoff policy claims -/

lemma get_reconnect_delay_val (s : MonitorState) (j : ℚ) :
    (get_reconnect_delay s j).2 = delayBase s.reconnect_attempts + j := by
  simp only [get_reconnect_delay, delayBase]
  rw [show s.reconnect_attempts + 1 - 1 = s.reconnect_attempts from by ring]

/-- C2: with the retry counter at `a ≥ 0` before the call, the computed
delay lies in the interval from `minDelay * 2 ^ a` to `minDelay * 2 ^ a + 1`,
where the base saturates at `maxDelay` (so the interval is
`[maxDelay, maxDelay + 1]` once `minDelay * 2 ^ a` reaches `maxDelay`),
and the base value is monotonically non-decreasing in `a`
(defaults `minDelay = 1`, `maxDelay = 60` seconds). -/
theorem backoff_delay_in_bounds (s : MonitorState) (a : Int) (j : ℚ)
    (_ha : 0 ≤ a) (hs : s.reconnect_attempts = a)
    (hj0 : 0 ≤ j) (hj1 : j < 1) :
    delayBase a ≤ (get_reconnect_delay s j).2 ∧
    (get_reconnect_delay s j).2 ≤ delayBase a + 1 ∧
    (RECONNECT_DELAY_MAX ≤ RECONNECT_DELAY_MIN * (2 : ℚ) ^ a →
      delayBase a = RECONNECT_DELAY_MAX) ∧
    (∀ b : Int, a ≤ b → delayBase a ≤ delayBase b) := by
  have hd : (get_reconnect_delay s j).2 = delayBase a + j := by
    rw [get_reconnect_delay_val, hs]
  refine ⟨by rw [hd]; linarith, by rw [hd]; linarith, ?_, ?_⟩
  · intro h
    exact min_eq_left h
  · intro b hab
    have h2 : (2 : ℚ) ^ a ≤ (2 : ℚ) ^ b := zpow_le_zpow_right₀ (by norm_num) hab
    simp only [delayBase, RECONNECT_DELAY_MIN, one_mul]
    exact min_le_min le_rfl h2

/-- C2 witness: at attempt count 0 with jitter one half, the delay is
between the base 1 and the base plus one. -/
theorem backoff_delay_in_bounds_witness :
    delayBase 0 ≤ (get_reconnect_delay initState (1 / 2)).2 ∧
    (get_reconnect_delay initState (1 / 2)).2 ≤ delayBase 0 + 1 :=
  ⟨(backoff_delay_in_bounds initState 0 (1 / 2) (by norm_num) rfl
      (by norm_num) (by norm_num)).1,
   (backoff_delay_in_bounds initState 0 (1 / 2) (by norm_num) rfl
      (by norm_num) (by norm_num)).2.1⟩

/-- C3 counterexample: a call to `get_reconnect_delay` modifies state
other than producing its result — it increments the global
`RECONNECT_ATTEMPTS`, so the state after the call differs from the
state before it. -/
theorem backoff_call_mutates_state :
    (get_reconnect_delay initState 0).1 ≠ initState := by
  intro h
  have h2 := congrArg MonitorState.reconnect_attempts h
  simp [get_reconnect_delay, initState] at h2

/-- C3 amended: with the random source fixed (the jitter given), the
computed delay is deterministic — it depends only on the retry counter —
and the only state effect of a call is incrementing the retry counter by
exactly one; every other field is left unchanged. -/
theorem backoff_deterministic_counter_only (s t : MonitorState) (j : ℚ)
    (h : s.reconnect_attempts = t.reconnect_attempts) :
    (get_reconnect_delay s j).2 = (get_reconnect_delay t j).2 ∧
    (get_reconnect_delay s j).1 =
      { s with reconnect_attempts := s.reconnect_attempts + 1 } := by
  constructor
  · rw [get_reconnect_delay_val, get_reconnect_delay_val, h]
  · rfl

/-- C3 witness: two states agreeing on the retry counter but differing
elsewhere give the same delay, and the call only bumps the counter. -/
theorem backoff_deterministic_counter_only_witness :
    (get_reconnect_delay initState (1 / 2)).2 =
      (get_reconnect_delay { initState with reconnecting := true } (1 / 2)).2 ∧
    (get_reconnect_delay initState (1 / 2)).1 =
      { initState with reconnect_attempts := initState.reconnect_attempts + 1 } :=
  backoff_deterministic_counter_only initState
    { initState with reconnecting := true } (1 / 2) rfl

/-! ## Retry counter and handshake claims -/

/-- The inductive invariant of the retry counter: it is non-negative,
and whenever the `reconnecting` flag is clear it is exactly zero. -/
def counterInv (s : MonitorState) : Prop :=
  0 ≤ s.reconnect_attempts ∧ (s.reconnecting = false → s.reconnect_attempts = 0)

lemma counterInv_step (s : MonitorState) (h : counterInv s) (e : Ev) :
    counterInv (stepM s e) := by
  obtain ⟨h0, hz⟩ := h
  cases e with
  | connect rc =>
    by_cases hrc : rc = 0
    · by_cases hr : s.reconnecting
      · simp [stepM, on_connect, hrc, hr, counterInv]
      · simp only [stepM, on_connect, if_pos hrc, if_neg hr]
        exact ⟨h0, hz⟩
    · simp only [stepM, on_connect, if_neg hrc]
      exact ⟨h0, hz⟩
  | disconnect rc =>
    by_cases hrc : rc ≠ 0
    · simp [stepM, on_disconnect, hrc, counterInv, h0]
    · simp only [stepM, on_disconnect, if_neg hrc]
      exact ⟨h0, hz⟩
  | message p =>
    exact ⟨h0, hz⟩
  | reconnectTick connected j =>
    by_cases hg : s.reconnecting ∧ connected = false
    · have hmax : ¬ (0 < MAX_RECONNECT_ATTEMPTS ∧
          MAX_RECONNECT_ATTEMPTS ≤ s.reconnect_attempts) := by
        simp [MAX_RECONNECT_ATTEMPTS]
      simp only [stepM, if_pos hg, if_neg hmax]
      constructor
      · simp [get_reconnect_delay]
        omega
      · intro hr
        exact absurd hg.1 (by simp [get_reconnect_delay] at hr; simp [hr])
    · simp only [stepM, if_neg hg]
      exact ⟨h0, hz⟩
  | keyboardInterrupt =>
    exact ⟨h0, hz⟩

lemma reach_counterInv (s : MonitorState) (h : Reach s) : counterInv s := by
  induction h with
  | init => exact ⟨le_refl 0, fun _ => rfl⟩
  | next _ e ih => exact counterInv_step _ ih e

/-- C6: in every reachable state the retry counter is non-negative; a
successful CONNACK (the Connecting to Connected transition) leaves it at
exactly zero; and each manual reconnection attempt made by the main loop
while reconnecting and disconnected increments it by exactly one. -/
theorem retry_counter_invariant (s : MonitorState) (h : Reach s) :
    0 ≤ s.reconnect_attempts ∧
    (stepM s (.connect 0)).reconnect_attempts = 0 ∧
    (∀ j : ℚ, s.reconnecting = true →
      (stepM s (.reconnectTick false j)).reconnect_attempts =
        s.reconnect_attempts + 1) := by
  obtain ⟨h0, hz⟩ := reach_counterInv s h
  refine ⟨h0, ?_, ?_⟩
  · by_cases hr : s.reconnecting
    · simp [stepM, on_connect, hr]
    · simp only [stepM, on_connect, if_pos rfl, if_neg hr]
      exact hz (by simpa using hr)
  · intro j hr
    have hg : s.reconnecting = true ∧ (false : Bool) = false := ⟨hr, rfl⟩
    have hmax : ¬ (0 < MAX_RECONNECT_ATTEMPTS ∧
        MAX_RECONNECT_ATTEMPTS ≤ s.reconnect_attempts) := by
      simp [MAX_RECONNECT_ATTEMPTS]
    have hstep : stepM s (.reconnectTick false j) = (get_reconnect_delay s j).1 := by
      simp only [stepM]
      rw [if_pos (show s.reconnecting = true ∧ True from ⟨hr, trivial⟩), if_neg hmax]
    rw [hstep]
    rfl

/-- C6 witness: at the startup state, the counter is non-negative and a
successful CONNACK leaves it at zero. -/
theorem retry_counter_invariant_witness :
    0 ≤ initState.reconnect_attempts ∧
    (stepM initState (Ev.connect 0)).reconnect_attempts = 0 :=
  ⟨(retry_counter_invariant initState Reach.init).1,
   (retry_counter_invariant initState Reach.init).2.1⟩

/-- C7 counterexample: a failed handshake (CONNACK code 5) at startup
does not enter the reconnecting state and does not increment the retry
counter — the `on_connect` failure branch only prints a line. -/
theorem handshake_failure_only_logs :
    (stepM initState (.connect 5)).reconnecting = false ∧
    (stepM initState (.connect 5)).reconnect_attempts = 0 ∧
    (on_connect initState 5).2 = ["Failed to connect to MQTT Broker, return code"] :=
  ⟨rfl, rfl, rfl⟩

/-- C7 amended: a handshake failure (non-zero CONNACK code) is logged
and is not fatal — the process state is entirely unchanged, so in
particular it is not terminated — but it does not by itself trigger the
reconnect path: the `reconnecting` flag and the retry counter are
untouched, and the backoff/retry sequence is driven only by the
disconnect callback, which sets the `reconnecting` flag on a non-zero
disconnect code. -/
theorem handshake_failure_logged_nonfatal (s : MonitorState) (rc : Int)
    (h : rc ≠ 0) :
    (on_connect s rc).1 = s ∧
    (on_connect s rc).2 = ["Failed to connect to MQTT Broker, return code"] ∧
    (stepM s (.connect rc)).terminated = s.terminated ∧
    (on_disconnect s rc).1.reconnecting = true := by
  refine ⟨?_, ?_, ?_, ?_⟩ <;> simp [on_connect, on_disconnect, stepM, h]

/-- C7 witness: CONNACK code 5 in the startup state. -/
theorem handshake_failure_logged_nonfatal_witness :
    (on_connect initState 5).1 = initState ∧
    (on_connect initState 5).2 = ["Failed to connect to MQTT Broker, return code"] ∧
    (stepM initState (.connect 5)).terminated = initState.terminated ∧
    (on_disconnect initState 5).1.reconnecting = true :=
  handshake_failure_logged_nonfatal initState 5 (by decide)

/-! ## Malformed payload claims -/

/-- C4 counterexample: the payload with the non-boolean occupancy value
5 (Python dict from the JSON text with occupancy equal to 5) is not
rejected: from the startup state it produces a state-change event and
overwrites the last-known state with the non-boolean value. -/
theorem nonbool_occupancy_accepted :
    (on_message .null (.parsed (.obj (.consO "occupancy" (.num 5) .nilO)))).event =
      some (.num 5) ∧
    (on_message .null (.parsed (.obj (.consO "occupancy" (.num 5) .nilO)))).newLast =
      .num 5 :=
  ⟨rfl, rfl⟩

lemma runMessages_skip (p : Payload)
    (hL : ∀ l, (on_message l p).newLast = l)
    (hE : ∀ l, (on_message l p).event = none) :
    ∀ (xs : List Payload) (last : JsonValue) (ys : List Payload),
      runMessages last (xs ++ p :: ys) = runMessages last (xs ++ ys) := by
  intro xs
  induction xs with
  | nil =>
    intro last ys
    simp [runMessages, hL last, hE last]
  | cons q qs ih =>
    intro last ys
    simp only [List.cons_append, runMessages, List.append_eq]
    rw [ih]

/-- C4 amended: a payload that fails to parse as JSON is rejected and
logged; a JSON payload without an occupancy field is discarded silently
(without logging); a JSON payload on which the membership test itself
raises a TypeError is rejected and logged. None of these produces an
event or changes the last-known state (and the message handler never
touches the connection state), so such a payload arriving between two
valid identical-state readings does not alter the emitted event sequence
and cannot break the alternation invariant. A payload whose occupancy
field holds a non-boolean value is, however, treated like any reading:
it is compared with the last state under Python equality and can emit an
event and overwrite the state. -/
theorem malformed_payload_no_effect (last : JsonValue) (v w : JsonValue)
    (xs ys : List Payload)
    (hv : pyInOccupancy v = Except.ok false)
    (hw : pyInOccupancy w = Except.error ()) :
    on_message last .malformed =
      ⟨last, none, some "Error: Received non-JSON message"⟩ ∧
    on_message last (.parsed v) = ⟨last, none, none⟩ ∧
    on_message last (.parsed w) = ⟨last, none, some "Error processing message"⟩ ∧
    runMessages last (xs ++ Payload.malformed :: ys) = runMessages last (xs ++ ys) ∧
    runMessages last (xs ++ Payload.parsed v :: ys) = runMessages last (xs ++ ys) := by
  refine ⟨rfl, by simp [on_message, hv], by simp [on_message, hw], ?_, ?_⟩
  · exact runMessages_skip .malformed (fun _ => rfl) (fun _ => rfl) xs last ys
  · exact runMessages_skip (.parsed v)
      (fun l => by simp [on_message, hv]) (fun l => by simp [on_message, hv]) xs last ys

/-- C4 witness: scenario C — a non-JSON payload between two valid
identical true readings leaves the event sequence unchanged; the empty
JSON object is discarded silently; the bare number 3 raises a logged
TypeError. -/
theorem malformed_payload_no_effect_witness :
    on_message .null .malformed =
      ⟨.null, none, some "Error: Received non-JSON message"⟩ ∧
    on_message .null (.parsed (.obj .nilO)) = ⟨.null, none, none⟩ ∧
    on_message .null (.parsed (.num 3)) =
      ⟨.null, none, some "Error processing message"⟩ ∧
    runMessages .null ([boolReading true] ++ Payload.malformed :: [boolReading true]) =
      runMessages .null ([boolReading true] ++ [boolReading true]) ∧
    runMessages .null ([boolReading true] ++ Payload.parsed (.obj .nilO) :: [boolReading true]) =
      runMessages .null ([boolReading true] ++ [boolReading true]) :=
  malformed_payload_no_effect .null (.obj .nilO) (.num 3)
    [boolReading true] [boolReading true] rfl rfl

/-! ## Staleness and heartbeat claims -/

/-- C5: the staleness predicate is true exactly when the time since the
last activity strictly exceeds the threshold: at one second past the
threshold it is true, exactly at the threshold it is false (exclusive
boundary), and the threshold constant defaults to 60 seconds. -/
theorem isStale_exclusive_boundary : ∀ T m : Int,
    isStale T (T + m + 1) m = true ∧
    isStale T (T + m) m = false ∧
    (∀ now : Int, isStale T now m = true ↔ m < now - T) ∧
    MAX_INACTIVE_TIME = 60 := by
  intro T m
  refine ⟨?_, ?_, ?_, rfl⟩
  · simp only [isStale, decide_eq_true_eq]
    omega
  · simp only [isStale, decide_eq_false_iff_not]
    omega
  · intro now
    simp [isStale]

/-- C8: the k-th heartbeat is published on the fixed heartbeat topic,
consecutive heartbeats are exactly the heartbeat interval apart
(independently of inbound sensor traffic, of which the schedule is not a
function), and the interval defaults to 15 seconds, shorter than the
keepalive interval. -/
theorem heartbeat_cadence : ∀ (start : Int) (k : Nat),
    (heartbeatPublication start (k + 1)).1 - (heartbeatPublication start k).1 =
      HEARTBEAT_INTERVAL ∧
    (heartbeatPublication start k).2 = MQTT_HEARTBEAT_TOPIC ∧
    HEARTBEAT_INTERVAL = 15 ∧
    HEARTBEAT_INTERVAL < KEEPALIVE_INTERVAL := by
  intro start k
  refine ⟨?_, rfl, rfl, by norm_num [HEARTBEAT_INTERVAL, KEEPALIVE_INTERVAL]⟩
  simp only [heartbeatPublication]
  push_cast
  ring

/-! ## Reporting query claims -/

/-- C9 counterexample: the date string 9999-12-31 is well formed (it
parses), yet the query does not return the in-window persisted event —
the next-day computation overflows `datetime.max` and the resulting
`OverflowError` escapes the function, so no list is returned at all. -/
theorem events_by_date_overflow_raises :
    parseDate "9999-12-31" = some (9999, 12, 31) ∧
    get_events_by_date "9999-12-31" [⟨1, "9999-12-31 10:00:00", true⟩] =
      ⟨none, []⟩ :=
  ⟨rfl, rfl⟩

/-- C9 amended: for every date string that parses in YYYY-MM-DD format —
except 9999-12-31, where the next-day computation overflows and the
function raises instead of returning — the query returns, without
raising and without logging, exactly those persisted events whose
timestamp is at or after the formatted start of that day and strictly
before the formatted start of the following day (bytewise string
comparison, as SQLite compares the TEXT column), ordered by timestamp
ascending. For four-digit years the formatted day equals the canonical
YYYY-MM-DD rendering of the parsed date. -/
theorem events_by_date_window (dateStr : String) (y m d : Nat)
    (db : List OccEvent)
    (hp : parseDate dateStr = some (y, m, d))
    (hov : ¬(y = 9999 ∧ m = 12 ∧ d = 31)) :
    ∃ res : List OccEvent,
      get_events_by_date dateStr db = ⟨some res, []⟩ ∧
      res.Perm (db.filter (inWindow (strftimeYMD y m d)
        (strftimeYMD (nextDayCal y m d).1 (nextDayCal y m d).2.1
          (nextDayCal y m d).2.2))) ∧
      List.Pairwise tsLe res := by
  refine ⟨sortByTimestamp (db.filter (inWindow (strftimeYMD y m d)
    (strftimeYMD (nextDayCal y m d).1 (nextDayCal y m d).2.1
      (nextDayCal y m d).2.2))), ?_, ?_, ?_⟩
  · simp [get_events_by_date, hp, hov]
  · exact List.perm_insertionSort tsLe _
  · exact List.sorted_insertionSort tsLe _

/-- C9 witness: querying 2024-02-28 over a three-row table returns the
two events of that day in ascending timestamp order. -/
theorem events_by_date_window_witness :
    ∃ res : List OccEvent,
      get_events_by_date "2024-02-28"
        [⟨2, "2024-02-28 12:00:00", false⟩, ⟨1, "2024-02-28 09:00:00", true⟩,
         ⟨3, "2024-02-29 00:00:00", true⟩] = ⟨some res, []⟩ ∧
      res.Perm (([⟨2, "2024-02-28 12:00:00", false⟩, ⟨1, "2024-02-28 09:00:00", true⟩,
         ⟨3, "2024-02-29 00:00:00", true⟩] : List OccEvent).filter
           (inWindow (strftimeYMD 2024 2 28)
             (strftimeYMD (nextDayCal 2024 2 28).1 (nextDayCal 2024 2 28).2.1
               (nextDayCal 2024 2 28).2.2))) ∧
      List.Pairwise tsLe res :=
  events_by_date_window "2024-02-28" 2024 2 28
    [⟨2, "2024-02-28 12:00:00", false⟩, ⟨1, "2024-02-28 09:00:00", true⟩,
     ⟨3, "2024-02-29 00:00:00", true⟩] rfl (by decide)

/-- C10: every input string that does not parse as a YYYY-MM-DD date
makes the query print the format error line and return the empty list;
no exception escapes, and the result does not depend on the database
content at all (the query never reaches the database). -/
theorem invalid_date_rejected (s : String) (db db2 : List OccEvent)
    (h : parseDate s = none) :
    get_events_by_date s db = ⟨some [], [dateFormatError]⟩ ∧
    get_events_by_date s db = get_events_by_date s db2 := by
  constructor <;> simp [get_events_by_date, h]

/-- C10 witness: the string not-a-date is rejected identically over a
non-empty and an empty table. -/
theorem invalid_date_rejected_witness :
    get_events_by_date "not-a-date" [⟨1, "2024-02-28 09:00:00", true⟩] =
      ⟨some [], [dateFormatError]⟩ ∧
    get_events_by_date "not-a-date" [⟨1, "2024-02-28 09:00:00", true⟩] =
      get_events_by_date "not-a-date" [] :=
  invalid_date_rejected "not-a-date" [⟨1, "2024-02-28 09:00:00", true⟩] [] rfl
